import Mathlib

/-!
Shallow embedding of the cart-to-order core of the
nodejs-express-supabase-api-boilerplate repository.

The store is modelled as an explicit record of tables (lists of rows);
each JavaScript model or controller method becomes a Lean function from
a store state to a result that carries the successor state where the
method writes.  Ids are natural numbers, prices are naturals (exact
decimal amounts), stock quantities are integers as in the schema.
Store-level failures that the deployed Postgres schema raises — the
orders unique constraint, the NOT NULL columns of order_items that the
order-items insert never populates, and selects naming columns absent
from the schema — are modelled by an explicit error type, since they
decide which paths of the order code can run at all.  Timestamps
(new Date()) are passed in as a natural-number parameter named now;
Date.now() and Math.random() in generateOrderNumber are likewise
parameters.
-/

/-- Product row (models/schema.js products table, part_001:31-52). -/
structure Product where
  id : Nat
  name : String
  sku : Option String
  price : Nat
  stockQuantity : Int
  imageUrl : Option String
  isActive : Bool
  updatedAt : Nat
deriving Repr, DecidableEq

/-- Cart line row (models/schema.js cart_items table, part_001:72-83). -/
structure CartItem where
  id : Nat
  userId : Nat
  productId : Nat
  quantity : Nat
  updatedAt : Nat
deriving Repr, DecidableEq

/-- Order row (models/schema.js orders table, part_001:86-105). -/
structure Order where
  id : Nat
  userId : Nat
  orderNumber : String
  status : String
  paymentStatus : String
  totalAmount : Nat
  updatedAt : Nat
deriving Repr, DecidableEq

/-- Order line row with the fields OrderModel.createOrder actually writes
(part_002:24-35): a price and name snapshot of the product plus its image.
Note these are not the columns the order_items schema declares
(part_001:108-121); that discrepancy is treated separately. -/
structure OrderItem where
  orderId : Nat
  productId : Nat
  quantity : Nat
  price : Nat
  productName : String
  productImage : Option String
deriving Repr, DecidableEq

/-- The relational store. -/
structure DB where
  products : List Product
  cartItems : List CartItem
  orders : List Order
  orderItems : List OrderItem
  nextCartItemId : Nat
  nextOrderId : Nat
deriving Repr, DecidableEq

/-- Point read of a product row by primary key. -/
def DB.findProduct (db : DB) (pid : Nat) : Option Product :=
  db.products.find? (fun p => p.id == pid)

namespace ProductModel

/-- ProductModel.findById (models/products.js:100-129): plain primary-key
lookup, no isActive filter. -/
def findById (db : DB) (pid : Nat) : Option Product :=
  db.findProduct pid

end ProductModel

namespace CartModel

/-- Cart line joined with its product as returned by
CartModel.getCartItems (models/cart.js:7-41): the left join plus the
where clause eq(products.isActive, true) keeps exactly the lines whose
product row exists and is active. -/
structure JoinedItem where
  id : Nat
  productId : Nat
  quantity : Nat
  product : Product
deriving Repr, DecidableEq

/-- CartModel.getCartItems (models/cart.js:7-41) restricted to its data
content; translation lookups and ordering are presentation only. -/
def getCartItems (db : DB) (userId : Nat) : List JoinedItem :=
  db.cartItems.filterMap (fun c =>
    if c.userId == userId then
      match db.findProduct c.productId with
      | some p =>
          if p.isActive then
            some { id := c.id, productId := c.productId,
                   quantity := c.quantity, product := p }
          else none
      | none => none
    else none)

/-- Issue record pushed by CartModel.validateCartItems for an invalid
line (models/cart.js:294-300); the interpolated stock counts in the
message text are elided. -/
structure IssueItem where
  cartItemId : Nat
  productId : Nat
  requestedQuantity : Nat
  issues : List String
deriving Repr, DecidableEq

/-- Entry of validation.validItems (models/cart.js:317-323). -/
structure ValidItem where
  cartItemId : Nat
  productId : Nat
  quantity : Nat
  price : Nat
deriving Repr, DecidableEq

/-- Result shape of CartModel.validateCartItems (models/cart.js:286-291). -/
structure Validation where
  isValid : Bool
  validItems : List ValidItem
  invalidItems : List IssueItem
deriving Repr, DecidableEq

/-- Issues computed for one cart line by the loop body of
validateCartItems (models/cart.js:293-325).  The left join yields null
product fields when the product row is gone: in JavaScript the check
item.isActive of null is falsy and item.quantity > null compares the
quantity against 0, so a missing product raises both issues. -/
def lineIssues (db : DB) (c : CartItem) : List String :=
  let p? := db.findProduct c.productId
  let isActive := match p? with | some p => p.isActive | none => false
  let stock : Int := match p? with | some p => p.stockQuantity | none => 0
  (if !isActive then ["Product is no longer available"] else []) ++
    (if (c.quantity : Int) > stock then ["Insufficient stock"] else [])

/-- Price snapshot put into a validItems entry (models/cart.js:322);
a valid line always has a live product row. -/
def linePrice (db : DB) (c : CartItem) : Nat :=
  match db.findProduct c.productId with
  | some p => p.price
  | none => 0

/-- One iteration of the validateCartItems loop (models/cart.js:293-325). -/
def validateStep (db : DB) (v : Validation) (c : CartItem) : Validation :=
  let issues := lineIssues db c
  if issues.isEmpty then
    { v with validItems := v.validItems ++
        [{ cartItemId := c.id, productId := c.productId,
           quantity := c.quantity, price := linePrice db c }] }
  else
    { isValid := false, validItems := v.validItems,
      invalidItems := v.invalidItems ++
        [{ cartItemId := c.id, productId := c.productId,
           requestedQuantity := c.quantity, issues := issues }] }

/-- CartModel.validateCartItems (models/cart.js:271-328): scans all of
the user's cart lines (no isActive filter on the join). -/
def validateCartItems (db : DB) (userId : Nat) : Validation :=
  let items := db.cartItems.filter (fun c => c.userId == userId)
  items.foldl (validateStep db)
    { isValid := true, validItems := [], invalidItems := [] }

/-- CartModel.isProductInCart (models/cart.js:229-240). -/
def isProductInCart (db : DB) (userId productId : Nat) : Bool :=
  db.cartItems.any (fun c => c.userId == userId && c.productId == productId)

/-- CartModel.addToCart (models/cart.js:95-134): merge into the existing
(user, product) line by incrementing its quantity, or insert a new line. -/
def addToCart (db : DB) (userId productId quantity now : Nat) :
    DB × CartItem :=
  match db.cartItems.find?
      (fun c => c.userId == userId && c.productId == productId) with
  | some existing =>
      let updated : CartItem :=
        { existing with quantity := existing.quantity + quantity,
                        updatedAt := now }
      ({ db with cartItems :=
            db.cartItems.map (fun c => if c.id == existing.id then updated else c) },
       updated)
  | none =>
      let line : CartItem :=
        { id := db.nextCartItemId, userId := userId, productId := productId,
          quantity := quantity, updatedAt := now }
      ({ db with cartItems := db.cartItems ++ [line],
                 nextCartItemId := db.nextCartItemId + 1 },
       line)

/-- CartModel.updateCartItem (models/cart.js:137-151): overwrite the
quantity of the caller's line. -/
def updateCartItem (db : DB) (userId cartItemId quantity now : Nat) :
    Option (DB × CartItem) :=
  match db.cartItems.find?
      (fun c => c.id == cartItemId && c.userId == userId) with
  | some existing =>
      let updated : CartItem :=
        { existing with quantity := quantity, updatedAt := now }
      some ({ db with cartItems :=
                db.cartItems.map (fun c =>
                  if c.id == cartItemId && c.userId == userId then updated else c) },
            updated)
  | none => none

/-- Cart line joined with its product without the isActive filter, as
returned by CartModel.getCartItem (models/cart.js:243-268). -/
structure CartItemDetail where
  id : Nat
  productId : Nat
  quantity : Nat
  product : Option Product
deriving Repr, DecidableEq

/-- CartModel.getCartItem (models/cart.js:243-268). -/
def getCartItem (db : DB) (userId cartItemId : Nat) :
    Option CartItemDetail :=
  match db.cartItems.find?
      (fun c => c.id == cartItemId && c.userId == userId) with
  | some c =>
      some { id := c.id, productId := c.productId, quantity := c.quantity,
             product := db.findProduct c.productId }
  | none => none

/-- CartModel.clearCart (models/cart.js:180-187). -/
def clearCart (db : DB) (userId : Nat) : DB :=
  { db with cartItems := db.cartItems.filter (fun c => !(c.userId == userId)) }

end CartModel

/-- Store-level failures raised by the deployed schema
(migrations/001_initial_schema.sql, models/schema.js):
uniqueViolation for the orders_order_number_unique constraint
(part_001:101), notNullViolation for an insert that omits a NOT NULL
column without default (order_items unit_price/total_price,
part_001:115-116, migration 001:87-88), and missingColumn for a select
that names a column the table does not have.  Any of them rejects the
statement; inside db.transaction the whole transaction rolls back and
the controllers land in their catch-all 500 handlers. -/
inductive StoreErr where
  | uniqueViolation
  | notNullViolation
  | missingColumn
deriving Repr, DecidableEq

deriving instance DecidableEq for Except

namespace OrderModel

/-- Last k characters of a string, as in timestamp.slice(-8)
(part_002:400). -/
def sliceLast (s : String) (k : Nat) : String :=
  String.mk (s.data.drop (s.length - k))

/-- Zero left padding, as in .padStart(3, '0') (part_002:399). -/
def padStart3 (s : String) : String :=
  String.mk (List.replicate (3 - s.length) '0') ++ s

/-- OrderModel.generateOrderNumber (part_002:397-401).  Date.now() and
the value of Math.floor(Math.random() * 1000) are parameters; the random
draw lies in [0, 1000), modelled by reducing rand modulo 1000. -/
def generateOrderNumber (timestampMs rand : Nat) : String :=
  "ORD-" ++ sliceLast (toString timestampMs) 8 ++ "-" ++
    padStart3 (toString (rand % 1000))

/-- The order fields prepared by the controller and passed as orderData
(controllers/orders.js:181-190). -/
structure OrderData where
  orderNumber : String
  status : String
  paymentStatus : String
  totalAmount : Nat
deriving Repr, DecidableEq

/-- OrderModel.createOrder (part_002:7-49) as it behaves against the
deployed schema.  The transaction inserts the order row first; a
duplicate order number violates orders_order_number_unique
(part_001:101) and aborts.  Otherwise the per-line loop begins with the
order-items insert (part_002:24-35), which supplies the keys price,
productName, productImage and updatedAt but no value for the NOT NULL
columns unit_price and total_price of order_items (part_001:108-121,
migration 001 lines 80-90): for every non-empty cart this first insert
throws, the transaction rolls back in full, and the unconditional stock
decrement that follows it in the source (part_002:37-45) is never
reached (had it run, migration 001 line 23's CHECK on stock_quantity
being non-negative would likewise reject any decrement below zero and
abort the transaction with a generic constraint error).  Only the
degenerate empty-cart call — which the controller never makes —
commits, inserting just the order row. -/
def createOrder (db : DB) (userId : Nat) (orderData : OrderData)
    (cartItems : List CartModel.JoinedItem) (now : Nat) :
    Except StoreErr (DB × Order) :=
  if db.orders.any (fun o => o.orderNumber == orderData.orderNumber) then
    .error StoreErr.uniqueViolation
  else if cartItems.isEmpty then
    let order : Order :=
      { id := db.nextOrderId, userId := userId,
        orderNumber := orderData.orderNumber, status := orderData.status,
        paymentStatus := orderData.paymentStatus,
        totalAmount := orderData.totalAmount, updatedAt := now }
    .ok ({ db with orders := db.orders ++ [order],
                   nextOrderId := db.nextOrderId + 1 }, order)
  else
    .error StoreErr.notNullViolation

/-- Ownership filter used by the order queries when a userId is passed
(part_002:139-146, 236-243, 302-303). -/
def ownedBy (userId : Option Nat) (o : Order) : Bool :=
  match userId with
  | some u => o.userId == u
  | none => true

/-- Order line as returned by OrderModel.findById (part_002:182-204):
the stored snapshot columns plus the live product via a left join. -/
structure OrderItemView where
  orderId : Nat
  productId : Nat
  quantity : Nat
  price : Nat
  productName : String
  productImage : Option String
  product : Option Product
deriving Repr, DecidableEq

/-- Order with its items as returned by OrderModel.findById
(part_002:139-210). -/
structure OrderView where
  order : Order
  items : List OrderItemView
deriving Repr, DecidableEq

/-- OrderModel.findById (part_002:139-210) against the deployed schema.
The order select (part_002:149-173) uses only real columns, so an
absent (or not owned) order yields null without touching order_items.
When an order row is found, the items select that follows
(part_002:182-204) names orderItems.price and orderItems.productImage —
columns the order_items table does not have (part_001:108-121) — so
that select always throws and findById never returns an order view. -/
def findById (db : DB) (id : Nat) (userId : Option Nat) :
    Except StoreErr (Option OrderView) :=
  match db.orders.find? (fun o => o.id == id && ownedBy userId o) with
  | none => .ok none
  | some _ => .error StoreErr.missingColumn

/-- OrderModel.updateStatus (part_002:236-255): set the status column
unconditionally — the current status is never read or compared. -/
def updateStatus (db : DB) (id : Nat) (status : String)
    (userId : Option Nat) (now : Nat) : Option (DB × Order) :=
  match db.orders.find? (fun o => o.id == id && ownedBy userId o) with
  | none => none
  | some o =>
      let o2 : Order := { o with status := status, updatedAt := now }
      some ({ db with orders :=
                db.orders.map (fun x =>
                  if x.id == id && ownedBy userId x then
                    { x with status := status, updatedAt := now }
                  else x) },
            o2)

/-- Outcome of OrderModel.cancel.  storeError is a store failure
propagated to the controller's catch-all 500; notFound and cannotCancel
are the throws at part_002:306 and part_002:312.  All three happen
before the transaction opens, so the store is untouched there. -/
inductive CancelResult where
  | storeError (e : StoreErr)
  | notFound
  | cannotCancel
  | ok (db : DB) (order : Order)
deriving Repr, DecidableEq

/-- Stock restore applied to one product row for one order line inside
the cancel transaction (part_002:326-337): add the line quantity back,
but only when the line's product row still exists and is active. -/
def restoreProduct (now : Nat) (item : OrderItemView) (p : Product) :
    Product :=
  match item.product with
  | some q =>
      if q.isActive && (p.id == item.productId) then
        { p with stockQuantity := p.stockQuantity + (item.quantity : Int),
                 updatedAt := now }
      else p
  | none => p

/-- Loop body of the cancel transaction for one order line
(part_002:327-337). -/
def cancelStep (now : Nat) (acc : DB) (item : OrderItemView) : DB :=
  match item.product with
  | some q =>
      if q.isActive then
        { acc with products := acc.products.map (restoreProduct now item) }
      else acc
  | none => acc

/-- OrderModel.cancel (part_002:302-341).  Its first await is findById
(part_002:303), which raises the missing-column store error for every
existing order, so the status guard and the cancel transaction below it
— transcribed here for completeness — are unreachable; only the
not-found throw (order absent) still occurs. -/
def cancel (db : DB) (id : Nat) (userId : Option Nat) (now : Nat) :
    CancelResult :=
  match findById db id userId with
  | .error e => .storeError e
  | .ok none => .notFound
  | .ok (some ov) =>
      if !(["pending", "confirmed"].contains ov.order.status) then
        .cannotCancel
      else
        let o2 : Order :=
          { ov.order with status := "cancelled", updatedAt := now }
        let db1 : DB :=
          { db with orders := db.orders.map (fun x =>
              if x.id == id then { x with status := "cancelled", updatedAt := now }
              else x) }
        .ok (ov.items.foldl (cancelStep now) db1) o2

end OrderModel

namespace CartController

/-- Outcome of CartController.addToCart (part_012:40-117); the
constructors mirror the early returns: 404 product not found, 400
product not available, 400 insufficient stock, and the 201 success that
returns the resulting line.  internalError stands for the catch-all 500,
reached only if the cart line promised by isProductInCart cannot be
re-read. -/
inductive AddResult where
  | notFound
  | unavailable
  | insufficientStock
  | internalError
  | ok (db : DB) (line : CartItem)
deriving Repr, DecidableEq

/-- CartController.addToCart (part_012:40-117). -/
def addToCart (db : DB) (userId productId quantity now : Nat) : AddResult :=
  match ProductModel.findById db productId with
  | none => .notFound
  | some product =>
      if !product.isActive then .unavailable
      else if (quantity : Int) > product.stockQuantity then .insufficientStock
      else if CartModel.isProductInCart db userId productId then
        match (CartModel.getCartItems db userId).find?
            (fun i => i.productId == productId) with
        | some current =>
            if ((current.quantity + quantity : Nat) : Int) >
                product.stockQuantity then .insufficientStock
            else
              let r := CartModel.addToCart db userId productId quantity now
              .ok r.1 r.2
        | none => .internalError
      else
        let r := CartModel.addToCart db userId productId quantity now
        .ok r.1 r.2

/-- Outcome of CartController.updateCartItem (part_012:120-195). -/
inductive UpdateCartResult where
  | invalidQuantity
  | notFound
  | insufficientStock
  | unavailable
  | internalError
  | ok (db : DB) (line : CartItem)
deriving Repr, DecidableEq

/-- CartController.updateCartItem (part_012:120-195).  Quantities are
naturals here, so the guard quantity <= 0 becomes quantity == 0; a line
whose product row is gone makes the JavaScript dereference
cartItem.product.stockQuantity throw, caught by the catch-all 500,
modelled as internalError with no write. -/
def updateCartItem (db : DB) (userId itemId quantity now : Nat) :
    UpdateCartResult :=
  if quantity == 0 then .invalidQuantity
  else
    match CartModel.getCartItem db userId itemId with
    | none => .notFound
    | some ci =>
        match ci.product with
        | none => .internalError
        | some p =>
            if (quantity : Int) > p.stockQuantity then .insufficientStock
            else if !p.isActive then .unavailable
            else
              match CartModel.updateCartItem db userId itemId quantity now with
              | none => .notFound
              | some r => .ok r.1 r.2

end CartController

namespace OrdersController

/-- Outcome of OrdersController.createOrder (controllers/orders.js:148-214):
400 empty cart, 400 cart validation failed carrying the structured issue
list, catch-all 500 for store failures (in particular an order-number
collision inside the transaction), and the 201 success. -/
inductive CreateOrderResult where
  | emptyCart
  | validationFailed (invalidItems : List CartModel.IssueItem)
  | internalError
  | ok (db : DB) (order : Order)
deriving Repr, DecidableEq

/-- Total computed at controllers/orders.js:176-178. -/
def cartTotal (items : List CartModel.JoinedItem) : Nat :=
  items.foldl (fun t i => t + i.product.price * i.quantity) 0

/-- OrdersController.createOrder (controllers/orders.js:148-214).  The
two failure returns happen before any write.  On the success path the
OrderModel.createOrder transaction commits first and
CartModel.clearCart runs afterwards as a separate store operation
(orders.js:193-196). -/
def createOrder (db : DB) (userId timestampMs rand now : Nat) :
    CreateOrderResult :=
  let cartItems := CartModel.getCartItems db userId
  if cartItems.isEmpty then .emptyCart
  else
    let validation := CartModel.validateCartItems db userId
    if !validation.isValid then .validationFailed validation.invalidItems
    else
      let orderData : OrderModel.OrderData :=
        { orderNumber := OrderModel.generateOrderNumber timestampMs rand,
          status := "pending", paymentStatus := "pending",
          totalAmount := cartTotal cartItems }
      match OrderModel.createOrder db userId orderData cartItems now with
      | .error _ => .internalError
      | .ok (db1, order) => .ok (CartModel.clearCart db1 userId) order

/-- Outcome of OrdersController.updateOrderStatus
(controllers/orders.js:217-258). -/
inductive UpdateStatusResult where
  | invalidStatus
  | notFound
  | ok (db : DB) (order : Order)
deriving Repr, DecidableEq

/-- Allowed status values (controllers/orders.js:222). -/
def validStatuses : List String :=
  ["pending", "confirmed", "processing", "shipped", "delivered", "cancelled"]

/-- OrdersController.updateOrderStatus (controllers/orders.js:217-258):
only the value of the requested status is checked; the order's current
status is never consulted. -/
def updateOrderStatus (db : DB) (id : Nat) (status : String) (now : Nat) :
    UpdateStatusResult :=
  if !(validStatuses.contains status) then .invalidStatus
  else
    match OrderModel.updateStatus db id status none now with
    | none => .notFound
    | some r => .ok r.1 r.2

end OrdersController

/-! Store well-formedness: the constraints the schema enforces
(part_001:80 cart_items_user_product_unique, primary keys on cart_items
and products, defaultRandom id generation modelled as a monotone
counter) together with the non-negative stock column of the initial
migration. -/

/-- Every product row carries a non-negative stock quantity. -/
def StockNonneg (db : DB) : Prop :=
  ∀ p ∈ db.products, 0 ≤ p.stockQuantity

/-- At most one cart line per (user, product) pair
(cart_items_user_product_unique, part_001:80). -/
def CartUnique (db : DB) : Prop :=
  db.cartItems.Pairwise
    (fun a b => ¬(a.userId = b.userId ∧ a.productId = b.productId))

/-- Cart line primary keys are distinct. -/
def CartIdsUnique (db : DB) : Prop :=
  db.cartItems.Pairwise (fun a b => a.id ≠ b.id)

/-- Fresh cart line ids stay above all existing ones. -/
def CartIdsBounded (db : DB) : Prop :=
  ∀ c ∈ db.cartItems, c.id < db.nextCartItemId

/-- Product primary keys are distinct. -/
def ProductIdsUnique (db : DB) : Prop :=
  db.products.Pairwise (fun a b => a.id ≠ b.id)

/-- All schema-level well-formedness facts together. -/
def WF (db : DB) : Prop :=
  StockNonneg db ∧ CartUnique db ∧ CartIdsUnique db ∧
    CartIdsBounded db ∧ ProductIdsUnique db

instance (db : DB) : Decidable (StockNonneg db) := by
  unfold StockNonneg; infer_instance

instance (db : DB) : Decidable (CartUnique db) := by
  unfold CartUnique; infer_instance

instance (db : DB) : Decidable (CartIdsUnique db) := by
  unfold CartIdsUnique; infer_instance

instance (db : DB) : Decidable (CartIdsBounded db) := by
  unfold CartIdsBounded; infer_instance

instance (db : DB) : Decidable (ProductIdsUnique db) := by
  unfold ProductIdsUnique; infer_instance

instance (db : DB) : Decidable (WF db) := by
  unfold WF; infer_instance

/-! Validation lemmas (models/cart.js:271-328). -/

theorem validateStep_false {db : DB} {v : CartModel.Validation}
    {c : CartItem} (h : v.isValid = false) :
    (CartModel.validateStep db v c).isValid = false := by
  dsimp only [CartModel.validateStep]
  split
  · simpa using h
  · rfl

theorem validate_foldl_false {db : DB} {v : CartModel.Validation}
    {l : List CartItem} (h : v.isValid = false) :
    (l.foldl (CartModel.validateStep db) v).isValid = false := by
  induction l generalizing v with
  | nil => simpa using h
  | cons c rest ih => exact ih (validateStep_false h)

/-- If the final fold is valid, every scanned line had no issues. -/
theorem validate_foldl_true {db : DB} {l : List CartItem}
    {v : CartModel.Validation}
    (h : (l.foldl (CartModel.validateStep db) v).isValid = true) :
    v.isValid = true ∧ ∀ c ∈ l, CartModel.lineIssues db c = [] := by
  induction l generalizing v with
  | nil => exact ⟨by simpa using h, by intro c hc; cases hc⟩
  | cons c rest ih =>
      rw [List.foldl_cons] at h
      rcases ih h with ⟨hstep, hrest⟩
      by_cases hc : (CartModel.lineIssues db c).isEmpty
      · have hv : v.isValid = true := by
          unfold CartModel.validateStep at hstep
          rw [if_pos hc] at hstep
          simpa using hstep
        refine ⟨hv, ?_⟩
        intro x hx
        rcases List.mem_cons.mp hx with h1 | h1
        · subst h1; exact List.isEmpty_iff.mp hc
        · exact hrest x h1
      · exfalso
        have : (CartModel.validateStep db v c).isValid = false := by
          unfold CartModel.validateStep
          rw [if_neg hc]
        rw [validate_foldl_false this] at h
        cases h

/-- A valid cart validation means every one of the user's lines is
issue-free. -/
theorem validateCartItems_true {db : DB} {userId : Nat}
    (h : (CartModel.validateCartItems db userId).isValid = true) :
    ∀ c ∈ db.cartItems, c.userId = userId →
      CartModel.lineIssues db c = [] := by
  intro c hc hu
  unfold CartModel.validateCartItems at h
  refine (validate_foldl_true h).2 c ?_
  rw [List.mem_filter]
  exact ⟨hc, by simp [hu]⟩

/-- One bad line forces the validation to report invalid. -/
theorem validateCartItems_false_of_issue {db : DB} {userId : Nat}
    {c : CartItem} (hc : c ∈ db.cartItems) (hu : c.userId = userId)
    (hissue : CartModel.lineIssues db c ≠ []) :
    (CartModel.validateCartItems db userId).isValid = false := by
  by_contra h
  have ht : (CartModel.validateCartItems db userId).isValid = true := by
    cases hv : (CartModel.validateCartItems db userId).isValid
    · exact absurd hv h
    · rfl
  exact hissue (validateCartItems_true ht c hc hu)

/-! Merge semantics of the cart (models/cart.js:95-134 and
part_012:40-117). -/

/-- After the in-place merge update, the first (user, product) match is
the merged line. -/
theorem find?_merge {l : List CartItem} {uid pid : Nat} {e : CartItem}
    (hf : l.find? (fun c => c.userId == uid && c.productId == pid) = some e)
    (q n : Nat) :
    (l.map (fun c => if c.id == e.id
        then { e with quantity := q, updatedAt := n } else c)).find?
      (fun c => c.userId == uid && c.productId == pid) =
      some { e with quantity := q, updatedAt := n } := by
  induction l with
  | nil => cases hf
  | cons c rest ih =>
      rw [List.find?_cons] at hf
      rw [List.map_cons, List.find?_cons]
      by_cases hc : (c.userId == uid && c.productId == pid) = true
      · rw [hc] at hf
        have hce : c = e := Option.some.inj hf
        subst hce
        simp only [beq_self_eq_true, if_true]
        have : ({ c with quantity := q, updatedAt := n } : CartItem).userId
            == uid && ({ c with quantity := q, updatedAt := n } :
              CartItem).productId == pid := hc
        rw [this]
      · have hcf : (c.userId == uid && c.productId == pid) = false := by
          simpa using hc
        rw [hcf] at hf
        by_cases hid : (c.id == e.id) = true
        · rw [if_pos hid]
          have he := List.find?_some hf
          have : ({ e with quantity := q, updatedAt := n } : CartItem).userId
              == uid && ({ e with quantity := q, updatedAt := n } :
                CartItem).productId == pid := he
          rw [this]
        · rw [if_neg hid, hcf]
          exact ih hf

/-- Quantity of the first (user, product) cart line, 0 when absent. -/
def firstLineQty (db : DB) (userId productId : Nat) : Nat :=
  match db.cartItems.find?
      (fun c => c.userId == userId && c.productId == productId) with
  | some c => c.quantity
  | none => 0

/-- CartModel.addToCart increments the (user, product) line: the
returned line and the stored first match both carry the previous
quantity plus the added one. -/
theorem cartModel_addToCart_quantity (db : DB) (uid pid q n : Nat) :
    (CartModel.addToCart db uid pid q n).2.quantity =
        firstLineQty db uid pid + q ∧
      firstLineQty (CartModel.addToCart db uid pid q n).1 uid pid =
        firstLineQty db uid pid + q := by
  unfold CartModel.addToCart firstLineQty
  cases hf : db.cartItems.find?
      (fun c => c.userId == uid && c.productId == pid) with
  | some e =>
      dsimp only
      constructor
      · rfl
      · rw [find?_merge hf (e.quantity + q) n]
  | none =>
      dsimp only
      constructor
      · omega
      · rw [List.find?_append, hf]
        simp [List.find?_cons]

/-- A successful controller addToCart is exactly the model addToCart
applied to the unchanged store. -/
theorem controller_addToCart_ok {db : DB} {uid pid q n : Nat} {db2 : DB}
    {line : CartItem}
    (h : CartController.addToCart db uid pid q n =
      CartController.AddResult.ok db2 line) :
    db2 = (CartModel.addToCart db uid pid q n).1 ∧
      line = (CartModel.addToCart db uid pid q n).2 := by
  unfold CartController.addToCart at h
  cases hp : ProductModel.findById db pid with
  | none => rw [hp] at h; cases h
  | some product =>
      rw [hp] at h
      dsimp only at h
      by_cases ha : !product.isActive
      · rw [if_pos ha] at h; cases h
      · rw [if_neg ha] at h
        by_cases hs : (q : Int) > product.stockQuantity
        · rw [if_pos hs] at h; cases h
        · rw [if_neg hs] at h
          by_cases hic : CartModel.isProductInCart db uid pid
          · rw [if_pos hic] at h
            cases hcur : (CartModel.getCartItems db uid).find?
                (fun i => i.productId == pid) with
            | none => rw [hcur] at h; cases h
            | some current =>
                rw [hcur] at h
                dsimp only at h
                by_cases ht : ((current.quantity + q : Nat) : Int) >
                    product.stockQuantity
                · rw [if_pos ht] at h; cases h
                · rw [if_neg ht] at h
                  cases h
                  exact ⟨rfl, rfl⟩
          · rw [if_neg hic] at h
            cases h
            exact ⟨rfl, rfl⟩

/-- Repeated controller adds for a fixed (user, product); none when any
add is refused. -/
def iterAdds (uid pid now : Nat) : DB → List Nat → Option DB
  | db, [] => some db
  | db, q :: rest =>
      match CartController.addToCart db uid pid q now with
      | .ok db2 _ => iterAdds uid pid now db2 rest
      | _ => none

/-- N successful adds with no intervening removal accumulate the sum of
the added quantities on the single (user, product) line. -/
theorem iterAdds_quantity {uid pid now : Nat} {qs : List Nat} {db db2 : DB}
    (h : iterAdds uid pid now db qs = some db2) :
    firstLineQty db2 uid pid = firstLineQty db uid pid + qs.sum := by
  induction qs generalizing db with
  | nil =>
      cases h
      simp
  | cons q rest ih =>
      unfold iterAdds at h
      cases hr : CartController.addToCart db uid pid q now with
      | ok db1 line =>
          rw [hr] at h
          dsimp only at h
          rcases controller_addToCart_ok hr with ⟨hdb, _⟩
          have hq := (cartModel_addToCart_quantity db uid pid q now).2
          rw [ih h, hdb, hq, List.sum_cons]
          omega
      | notFound => rw [hr] at h; cases h
      | unavailable => rw [hr] at h; cases h
      | insufficientStock => rw [hr] at h; cases h
      | internalError => rw [hr] at h; cases h

/-! Preservation of the schema constraints by each operation. -/

/-- Members with equal ids coincide when ids are pairwise distinct. -/
theorem eq_of_id_eq {l : List CartItem} {a b : CartItem}
    (h : l.Pairwise (fun x y => x.id ≠ y.id)) (ha : a ∈ l) (hb : b ∈ l)
    (hid : a.id = b.id) : a = b := by
  by_contra hne
  exact h.forall (fun x y hxy => Ne.symm hxy) ha hb hne hid

theorem cartModel_addToCart_wf {db : DB} (uid pid q n : Nat)
    (hcu : CartUnique db) (hci : CartIdsUnique db)
    (hcb : CartIdsBounded db) :
    CartUnique (CartModel.addToCart db uid pid q n).1 ∧
      CartIdsUnique (CartModel.addToCart db uid pid q n).1 ∧
      CartIdsBounded (CartModel.addToCart db uid pid q n).1 ∧
      (CartModel.addToCart db uid pid q n).1.products = db.products ∧
      (CartModel.addToCart db uid pid q n).1.orders = db.orders ∧
      (CartModel.addToCart db uid pid q n).1.orderItems = db.orderItems := by
  unfold CartModel.addToCart
  cases hf : db.cartItems.find?
      (fun c => c.userId == uid && c.productId == pid) with
  | some e =>
      dsimp only
      have hmem : e ∈ db.cartItems := List.mem_of_find?_eq_some hf
      have hpt : ∀ c ∈ db.cartItems,
          ((if c.id == e.id
            then ({ e with quantity := e.quantity + q, updatedAt := n } :
              CartItem) else c)).userId = c.userId ∧
          ((if c.id == e.id
            then ({ e with quantity := e.quantity + q, updatedAt := n } :
              CartItem) else c)).productId = c.productId ∧
          ((if c.id == e.id
            then ({ e with quantity := e.quantity + q, updatedAt := n } :
              CartItem) else c)).id = c.id := by
        intro c hc
        by_cases hid : (c.id == e.id) = true
        · have hce : c = e := eq_of_id_eq hci hc hmem (by simpa using hid)
          subst hce
          rw [if_pos hid]
          exact ⟨rfl, rfl, rfl⟩
        · rw [if_neg hid]
          exact ⟨rfl, rfl, rfl⟩
      refine ⟨?_, ?_, ?_, rfl, rfl, rfl⟩
      · unfold CartUnique at *
        dsimp only
        rw [List.pairwise_map]
        refine hcu.imp_of_mem ?_
        intro a b ha hb hab hcon
        rcases hpt a ha with ⟨ha1, ha2, _⟩
        rcases hpt b hb with ⟨hb1, hb2, _⟩
        rw [ha1, ha2, hb1, hb2] at hcon
        exact hab hcon
      · unfold CartIdsUnique at *
        dsimp only
        rw [List.pairwise_map]
        refine hci.imp_of_mem ?_
        intro a b ha hb hab hcon
        rcases hpt a ha with ⟨_, _, ha3⟩
        rcases hpt b hb with ⟨_, _, hb3⟩
        rw [ha3, hb3] at hcon
        exact hab hcon
      · unfold CartIdsBounded at *
        dsimp only
        intro c hc
        rcases List.mem_map.mp hc with ⟨a, ha, hfa⟩
        rcases hpt a ha with ⟨_, _, ha3⟩
        rw [← hfa, ha3]
        exact hcb a ha
  | none =>
      dsimp only
      have hnone : ∀ c ∈ db.cartItems,
          ¬(c.userId == uid && c.productId == pid) = true :=
        fun c hc => List.find?_eq_none.mp hf c hc
      refine ⟨?_, ?_, ?_, rfl, rfl, rfl⟩
      · unfold CartUnique at *
        dsimp only
        rw [List.pairwise_append]
        refine ⟨hcu, List.pairwise_singleton _ _, ?_⟩
        intro a ha b hb hcon
        have hb1 := List.mem_singleton.mp hb
        subst hb1
        apply hnone a ha
        simp [hcon.1, hcon.2]
      · unfold CartIdsUnique CartIdsBounded at *
        dsimp only
        rw [List.pairwise_append]
        refine ⟨hci, List.pairwise_singleton _ _, ?_⟩
        intro a ha b hb
        have hb1 := List.mem_singleton.mp hb
        subst hb1
        exact Nat.ne_of_lt (hcb a ha)
      · unfold CartIdsBounded at *
        dsimp only
        intro c hc
        rcases List.mem_append.mp hc with h1 | h1
        · exact Nat.lt_succ_of_lt (hcb c h1)
        · have hc1 := List.mem_singleton.mp h1
          subst hc1
          exact Nat.lt_succ_self _

theorem cartModel_updateCartItem_wf {db : DB} {uid iid q n : Nat}
    {db2 : DB} {line : CartItem}
    (h : CartModel.updateCartItem db uid iid q n = some (db2, line))
    (hcu : CartUnique db) (hci : CartIdsUnique db)
    (hcb : CartIdsBounded db) :
    CartUnique db2 ∧ CartIdsUnique db2 ∧ CartIdsBounded db2 ∧
      db2.products = db.products ∧ db2.orders = db.orders ∧
      db2.orderItems = db.orderItems := by
  unfold CartModel.updateCartItem at h
  cases hf : db.cartItems.find?
      (fun c => c.id == iid && c.userId == uid) with
  | none => rw [hf] at h; cases h
  | some e =>
      rw [hf] at h
      dsimp only at h
      have hde : db2 = ((CartModel.updateCartItem db uid iid q n).getD
          (db2, line)).1 := by
        unfold CartModel.updateCartItem
        rw [hf]
        cases h
        rfl
      have hmem : e ∈ db.cartItems := List.mem_of_find?_eq_some hf
      have heid : (e.id == iid) = true := by
        have := List.find?_some hf
        exact (Bool.and_eq_true_iff.mp this).1
      cases h
      have hpt : ∀ c ∈ db.cartItems,
          ((if c.id == iid && c.userId == uid
            then ({ e with quantity := q, updatedAt := n } : CartItem)
            else c)).userId = c.userId ∧
          ((if c.id == iid && c.userId == uid
            then ({ e with quantity := q, updatedAt := n } : CartItem)
            else c)).productId = c.productId ∧
          ((if c.id == iid && c.userId == uid
            then ({ e with quantity := q, updatedAt := n } : CartItem)
            else c)).id = c.id := by
        intro c hc
        by_cases hcnd : (c.id == iid && c.userId == uid) = true
        · have hcid : c.id = iid := by
            simpa using (Bool.and_eq_true_iff.mp hcnd).1
          have heid2 : e.id = iid := by simpa using heid
          have hce : c = e := eq_of_id_eq hci hc hmem (by rw [hcid, heid2])
          subst hce
          rw [if_pos hcnd]
          exact ⟨rfl, rfl, by simp [hcid]⟩
        · rw [if_neg hcnd]
          exact ⟨rfl, rfl, rfl⟩
      refine ⟨?_, ?_, ?_, rfl, rfl, rfl⟩
      · unfold CartUnique at *
        dsimp only
        rw [List.pairwise_map]
        refine hcu.imp_of_mem ?_
        intro a b ha hb hab hcon
        rcases hpt a ha with ⟨ha1, ha2, _⟩
        rcases hpt b hb with ⟨hb1, hb2, _⟩
        rw [ha1, ha2, hb1, hb2] at hcon
        exact hab hcon
      · unfold CartIdsUnique at *
        dsimp only
        rw [List.pairwise_map]
        refine hci.imp_of_mem ?_
        intro a b ha hb hab hcon
        rcases hpt a ha with ⟨_, _, ha3⟩
        rcases hpt b hb with ⟨_, _, hb3⟩
        rw [ha3, hb3] at hcon
        exact hab hcon
      · unfold CartIdsBounded at *
        dsimp only
        intro c hc
        rcases List.mem_map.mp hc with ⟨a, ha, hfa⟩
        rcases hpt a ha with ⟨_, _, ha3⟩
        rw [← hfa, ha3]
        exact hcb a ha

/-- For any non-empty line list the model createOrder fails: either the
order number collides, or the order-items insert violates the NOT NULL
columns of order_items. -/
theorem orderModel_createOrder_error (db : DB) (uid : Nat)
    (od : OrderModel.OrderData) (items : List CartModel.JoinedItem)
    (now : Nat) (hne : items ≠ []) :
    ∃ e, OrderModel.createOrder db uid od items now = .error e := by
  unfold OrderModel.createOrder
  by_cases hcol :
      (db.orders.any (fun o => o.orderNumber == od.orderNumber)) = true
  · rw [if_pos hcol]
    exact ⟨_, rfl⟩
  · rw [if_neg hcol]
    rw [if_neg (by
      rw [(by simpa [List.isEmpty_iff] using hne : items.isEmpty = false)]
      exact Bool.false_ne_true)]
    exact ⟨_, rfl⟩

/-- findById never returns an order view: a found order row makes the
items select throw on its nonexistent columns. -/
theorem findById_never_found {db : DB} {id : Nat} {uid : Option Nat}
    {ov : OrderModel.OrderView} :
    OrderModel.findById db id uid ≠ Except.ok (some ov) := by
  unfold OrderModel.findById
  cases hf : db.orders.find?
      (fun o => o.id == id && OrderModel.ownedBy uid o) with
  | none =>
      intro h
      exact Option.noConfusion (Except.ok.inj h)
  | some o =>
      intro h
      exact Except.noConfusion h

/-- cancel can never reach its success branch: findById throws first for
every existing order. -/
theorem cancel_never_ok {db : DB} {id : Nat} {uid : Option Nat}
    {now : Nat} {db2 : DB} {o : Order} :
    OrderModel.cancel db id uid now ≠ OrderModel.CancelResult.ok db2 o := by
  unfold OrderModel.cancel
  cases hf : OrderModel.findById db id uid with
  | error e =>
      intro h
      simp at h
  | ok ov? =>
      cases ov? with
      | none =>
          intro h
          simp at h
      | some ov => exact absurd hf findById_never_found

/-- The controller's createOrder can never succeed: an empty active view
yields EmptyCart, and otherwise the transaction always errors on the
order-items insert (or on an order-number collision). -/
theorem controller_createOrder_never_ok {db : DB} {uid ts rand now : Nat}
    {db2 : DB} {o : Order} :
    OrdersController.createOrder db uid ts rand now ≠
      OrdersController.CreateOrderResult.ok db2 o := by
  unfold OrdersController.createOrder
  by_cases hemp : (CartModel.getCartItems db uid).isEmpty
  · rw [if_pos hemp]
    intro h
    simp at h
  · rw [if_neg hemp]
    by_cases hval : (CartModel.validateCartItems db uid).isValid
    · rw [if_neg (by rw [hval]; simp)]
      dsimp only
      have hne : CartModel.getCartItems db uid ≠ [] := by
        simpa [List.isEmpty_iff] using hemp
      rcases orderModel_createOrder_error db uid
          { orderNumber := OrderModel.generateOrderNumber ts rand,
            status := "pending", paymentStatus := "pending",
            totalAmount :=
              OrdersController.cartTotal (CartModel.getCartItems db uid) }
          (CartModel.getCartItems db uid) now hne with ⟨e, he⟩
      rw [he]
      intro h
      simp at h
    · rw [if_pos (by
        rw [(by simpa using hval :
          (CartModel.validateCartItems db uid).isValid = false)]
        rfl)]
      intro h
      simp at h

/-- Elimination of a successful model updateStatus: the order was found
(no condition on its current status is ever evaluated) and only the
orders table changed. -/
theorem orderModel_updateStatus_ok {db : DB} {id : Nat} {status : String}
    {uid : Option Nat} {now : Nat} {db1 : DB} {o2 : Order}
    (h : OrderModel.updateStatus db id status uid now = some (db1, o2)) :
    ∃ o, db.orders.find? (fun x => x.id == id && OrderModel.ownedBy uid x) =
        some o ∧
      o2 = { o with status := status, updatedAt := now } ∧
      db1.products = db.products ∧ db1.cartItems = db.cartItems ∧
      db1.orderItems = db.orderItems ∧
      db1.nextCartItemId = db.nextCartItemId ∧
      db1.orders = db.orders.map (fun x =>
        if x.id == id && OrderModel.ownedBy uid x
        then { x with status := status, updatedAt := now } else x) := by
  unfold OrderModel.updateStatus at h
  cases hf : db.orders.find? (fun x => x.id == id && OrderModel.ownedBy uid x) with
  | none => rw [hf] at h; cases h
  | some o =>
      rw [hf] at h
      dsimp only at h
      cases h
      exact ⟨o, rfl, rfl, rfl, rfl, rfl, rfl, rfl⟩

/-- Elimination of a successful controller updateOrderStatus. -/
theorem ordersController_updateOrderStatus_ok {db : DB} {id : Nat}
    {status : String} {now : Nat} {db1 : DB} {o2 : Order}
    (h : OrdersController.updateOrderStatus db id status now =
      OrdersController.UpdateStatusResult.ok db1 o2) :
    OrdersController.validStatuses.contains status = true ∧
      OrderModel.updateStatus db id status none now = some (db1, o2) := by
  unfold OrdersController.updateOrderStatus at h
  by_cases hv : (OrdersController.validStatuses.contains status) = true
  · rw [if_neg (by rw [hv]; simp)] at h
    refine ⟨hv, ?_⟩
    cases hu : OrderModel.updateStatus db id status none now with
    | none => rw [hu] at h; cases h
    | some r =>
        rw [hu] at h
        dsimp only at h
        cases h
        rfl
  · rw [if_pos (by simpa using hv)] at h
    cases h

/-- Elimination of a successful controller updateCartItem. -/
theorem cartController_updateCartItem_ok {db : DB} {uid iid q n : Nat}
    {db2 : DB} {line : CartItem}
    (h : CartController.updateCartItem db uid iid q n =
      CartController.UpdateCartResult.ok db2 line) :
    CartModel.updateCartItem db uid iid q n = some (db2, line) := by
  unfold CartController.updateCartItem at h
  by_cases hq : (q == 0) = true
  · rw [if_pos hq] at h; cases h
  · rw [if_neg (by simpa using hq)] at h
    cases hg : CartModel.getCartItem db uid iid with
    | none => rw [hg] at h; cases h
    | some ci =>
        rw [hg] at h
        dsimp only at h
        cases hp : ci.product with
        | none => rw [hp] at h; cases h
        | some p =>
            rw [hp] at h
            dsimp only at h
            by_cases hs : ((q : Int) > p.stockQuantity)
            · rw [if_pos hs] at h; cases h
            · rw [if_neg hs] at h
              by_cases ha : (!p.isActive) = true
              · rw [if_pos ha] at h; cases h
              · rw [if_neg (by simpa using ha)] at h
                cases hu : CartModel.updateCartItem db uid iid q n with
                | none => rw [hu] at h; cases h
                | some r =>
                    rw [hu] at h
                    dsimp only at h
                    cases h
                    rfl

/-! Sequential execution of the core's mutating operations. -/

/-- The mutating operations the core exposes. -/
inductive Op where
  | addToCart (userId productId quantity now : Nat)
  | updateCartItem (userId itemId quantity now : Nat)
  | createOrder (userId timestampMs rand now : Nat)
  | cancelOrder (id : Nat) (userId : Option Nat) (now : Nat)
  | updateOrderStatus (id : Nat) (status : String) (now : Nat)
deriving Repr

/-- Effect of one operation on the store: an operation that fails with
any of its error outcomes performs no write (every failing path of the
JavaScript code returns or throws before its store mutation, and the
one transaction that can fail rolls back). -/
def applyOp (db : DB) : Op → DB
  | .addToCart uid pid q now =>
      match CartController.addToCart db uid pid q now with
      | .ok db2 _ => db2
      | _ => db
  | .updateCartItem uid iid q now =>
      match CartController.updateCartItem db uid iid q now with
      | .ok db2 _ => db2
      | _ => db
  | .createOrder uid ts rand now =>
      match OrdersController.createOrder db uid ts rand now with
      | .ok db2 _ => db2
      | _ => db
  | .cancelOrder id uid now =>
      match OrderModel.cancel db id uid now with
      | .ok db2 _ => db2
      | _ => db
  | .updateOrderStatus id status now =>
      match OrdersController.updateOrderStatus db id status now with
      | .ok db2 _ => db2
      | _ => db

/-- Run a sequence of operations. -/
def runOps (db : DB) (ops : List Op) : DB :=
  ops.foldl applyOp db

/-- Well-formedness transfers along states that agree on products, cart
lines and the cart id counter. -/
theorem wf_of_components {db db2 : DB} (h : WF db)
    (hp : db2.products = db.products)
    (hc : db2.cartItems = db.cartItems)
    (hn : db2.nextCartItemId = db.nextCartItemId) : WF db2 := by
  rcases h with ⟨h1, h2, h3, h4, h5⟩
  unfold WF StockNonneg CartUnique CartIdsUnique CartIdsBounded
    ProductIdsUnique at *
  rw [hp, hc, hn]
  exact ⟨h1, h2, h3, h4, h5⟩

/-- Every operation preserves the schema constraints, and in particular
keeps every product's stock non-negative. -/
theorem applyOp_wf {db : DB} (op : Op) (h : WF db) : WF (applyOp db op) := by
  rcases hwf : h with ⟨h1, h2, h3, h4, h5⟩
  cases op with
  | addToCart uid pid q now =>
      cases hr : CartController.addToCart db uid pid q now with
      | ok db2 line =>
          simp only [applyOp, hr]
          rcases controller_addToCart_ok hr with ⟨hdb, _⟩
          rcases cartModel_addToCart_wf uid pid q now h2 h3 h4 with
            ⟨w1, w2, w3, w4, _, _⟩
          subst hdb
          refine ⟨?_, w1, w2, w3, ?_⟩
          · unfold StockNonneg at *
            rw [w4]
            exact h1
          · unfold ProductIdsUnique at *
            rw [w4]
            exact h5
      | notFound => simp only [applyOp, hr]; exact h
      | unavailable => simp only [applyOp, hr]; exact h
      | insufficientStock => simp only [applyOp, hr]; exact h
      | internalError => simp only [applyOp, hr]; exact h
  | updateCartItem uid iid q now =>
      cases hr : CartController.updateCartItem db uid iid q now with
      | ok db2 line =>
          simp only [applyOp, hr]
          have hm := cartController_updateCartItem_ok hr
          rcases cartModel_updateCartItem_wf hm h2 h3 h4 with
            ⟨w1, w2, w3, w4, _, _⟩
          refine ⟨?_, w1, w2, w3, ?_⟩
          · unfold StockNonneg at *
            rw [w4]
            exact h1
          · unfold ProductIdsUnique at *
            rw [w4]
            exact h5
      | invalidQuantity => simp only [applyOp, hr]; exact h
      | notFound => simp only [applyOp, hr]; exact h
      | insufficientStock => simp only [applyOp, hr]; exact h
      | unavailable => simp only [applyOp, hr]; exact h
      | internalError => simp only [applyOp, hr]; exact h
  | createOrder uid ts rand now =>
      cases hr : OrdersController.createOrder db uid ts rand now with
      | ok db2 o => exact absurd hr controller_createOrder_never_ok
      | emptyCart => simp only [applyOp, hr]; exact h
      | validationFailed inv => simp only [applyOp, hr]; exact h
      | internalError => simp only [applyOp, hr]; exact h
  | cancelOrder id uid now =>
      cases hr : OrderModel.cancel db id uid now with
      | ok db2 o2 => exact absurd hr cancel_never_ok
      | storeError e => simp only [applyOp, hr]; exact h
      | notFound => simp only [applyOp, hr]; exact h
      | cannotCancel => simp only [applyOp, hr]; exact h
  | updateOrderStatus id status now =>
      cases hr : OrdersController.updateOrderStatus db id status now with
      | ok db2 o2 =>
          simp only [applyOp, hr]
          rcases ordersController_updateOrderStatus_ok hr with ⟨_, hm⟩
          rcases orderModel_updateStatus_ok hm with
            ⟨o, _, _, hprod, hcart, _, hnext, _⟩
          exact wf_of_components h hprod hcart hnext
      | invalidStatus => simp only [applyOp, hr]; exact h
      | notFound => simp only [applyOp, hr]; exact h

/-- A sequence of operations preserves well-formedness. -/
theorem runOps_wf {db : DB} (ops : List Op) (h : WF db) :
    WF (runOps db ops) := by
  induction ops generalizing db with
  | nil => exact h
  | cons op rest ih => exact ih (applyOp_wf op h)



/-! Consistency of the controller's two views of the cart line
(part_012:72-89): the first match in the active view corresponds to the
first (user, product) match among the raw cart lines. -/

theorem find?_cons_pos {α : Type} (p : α → Bool) (a : α) (l : List α)
    (h : p a = true) : (a :: l).find? p = some a :=
  List.find?_cons_of_pos l h

theorem find?_cons_neg {α : Type} (p : α → Bool) (a : α) (l : List α)
    (h : p a = false) : (a :: l).find? p = l.find? p :=
  List.find?_cons_of_neg l (by rw [h]; exact Bool.false_ne_true)

theorem view_find?_aux (db : DB) (uid pid : Nat) (p : Product)
    (hp : db.findProduct pid = some p) (ha : p.isActive = true) :
    ∀ l : List CartItem,
    (l.filterMap (fun c =>
      if c.userId == uid then
        match db.findProduct c.productId with
        | some q =>
            if q.isActive then
              some ({ id := c.id, productId := c.productId,
                      quantity := c.quantity, product := q } :
                CartModel.JoinedItem)
            else none
        | none => none
      else none)).find? (fun i => i.productId == pid) =
    (l.find? (fun c => c.userId == uid && c.productId == pid)).map
      (fun c => { id := c.id, productId := c.productId,
                  quantity := c.quantity, product := p }) := by
  intro l
  induction l with
  | nil => rfl
  | cons c rest ih =>
      rw [List.filterMap_cons]
      by_cases hcu : (c.userId == uid) = true
      · by_cases hcp : (c.productId == pid) = true
        · have hcpe : c.productId = pid := by simpa using hcp
          have hfc : db.findProduct c.productId = some p := by
            rw [hcpe]; exact hp
          rw [if_pos hcu, hfc]
          dsimp only
          rw [if_pos ha]
          dsimp only
          have hpred : (c.userId == uid && c.productId == pid) = true := by
            rw [hcu, hcp]; rfl
          rw [find?_cons_pos (fun x => x.userId == uid && x.productId == pid)
            c rest hpred]
          rw [find?_cons_pos (fun i => i.productId == pid) ({ id := c.id, productId := c.productId, quantity := c.quantity, product := p } : CartModel.JoinedItem) _ hcp]
          rfl
        · have hcpf : (c.productId == pid) = false := by simpa using hcp
          have hpred : (c.userId == uid && c.productId == pid) = false := by
            rw [hcu, hcpf]; rfl
          rw [if_pos hcu]
          rw [find?_cons_neg (fun x => x.userId == uid && x.productId == pid)
            c rest hpred]
          cases hfc : db.findProduct c.productId with
          | none => exact ih
          | some q =>
              dsimp only
              by_cases hqa : q.isActive
              · rw [if_pos hqa]
                dsimp only
                rw [find?_cons_neg (fun i => i.productId == pid) ({ id := c.id, productId := c.productId, quantity := c.quantity, product := q } : CartModel.JoinedItem) _ hcpf]
                exact ih
              · rw [if_neg hqa]
                exact ih
      · have hcuf : (c.userId == uid) = false := by simpa using hcu
        have hpred : (c.userId == uid && c.productId == pid) = false := by
          rw [hcuf]; rfl
        rw [if_neg hcu]
        rw [find?_cons_neg (fun x => x.userId == uid && x.productId == pid)
          c rest hpred]
        exact ih

/-- The controller's search of the active view equals the mapped first
(user, product) cart line. -/
theorem view_find?_eq {db : DB} {uid pid : Nat} {p : Product}
    (hp : db.findProduct pid = some p) (ha : p.isActive = true) :
    (CartModel.getCartItems db uid).find? (fun i => i.productId == pid) =
      (db.cartItems.find?
          (fun c => c.userId == uid && c.productId == pid)).map
        (fun c => { id := c.id, productId := c.productId,
                    quantity := c.quantity, product := p }) :=
  view_find?_aux db uid pid p hp ha db.cartItems

theorem isProductInCart_true_of_find? {db : DB} {uid pid : Nat}
    {e : CartItem}
    (hf : db.cartItems.find?
      (fun c => c.userId == uid && c.productId == pid) = some e) :
    CartModel.isProductInCart db uid pid = true := by
  unfold CartModel.isProductInCart
  rw [List.any_eq_true]
  refine ⟨e, List.mem_of_find?_eq_some hf, ?_⟩
  have := List.find?_some hf
  simpa using this

theorem isProductInCart_false_of_find? {db : DB} {uid pid : Nat}
    (hf : db.cartItems.find?
      (fun c => c.userId == uid && c.productId == pid) = none) :
    CartModel.isProductInCart db uid pid = false := by
  unfold CartModel.isProductInCart
  rw [List.any_eq_false]
  intro c hc
  have := List.find?_eq_none.mp hf c hc
  simpa using this

/-- C7: For every call addToCart(userId, productId, qty) with positive
qty: it fails NotFound if the product is absent, Unavailable if the
product is inactive, and InsufficientStock if (existing line quantity +
qty) exceeds the product's current stock; on success it increments the
existing (user, product) line rather than overwriting it, so after N
successful adds with no intervening removal the line's quantity equals
the sum of the added quantities. -/
theorem addToCart_spec (db : DB) (uid pid qty now : Nat) (hq : 0 < qty) :
    (ProductModel.findById db pid = none →
      CartController.addToCart db uid pid qty now =
        CartController.AddResult.notFound) ∧
    (∀ p, ProductModel.findById db pid = some p → p.isActive = false →
      CartController.addToCart db uid pid qty now =
        CartController.AddResult.unavailable) ∧
    (∀ p, ProductModel.findById db pid = some p → p.isActive = true →
      ((firstLineQty db uid pid + qty : Nat) : Int) > p.stockQuantity →
      CartController.addToCart db uid pid qty now =
        CartController.AddResult.insufficientStock) ∧
    (∀ p, ProductModel.findById db pid = some p → p.isActive = true →
      ((firstLineQty db uid pid + qty : Nat) : Int) ≤ p.stockQuantity →
      ∃ db2 line, CartController.addToCart db uid pid qty now =
          CartController.AddResult.ok db2 line ∧
        line.quantity = firstLineQty db uid pid + qty ∧
        firstLineQty db2 uid pid = firstLineQty db uid pid + qty) ∧
    (∀ qs db2, iterAdds uid pid now db qs = some db2 →
      firstLineQty db2 uid pid = firstLineQty db uid pid + qs.sum) := by
  refine ⟨?_, ?_, ?_, ?_, fun qs db2 h => iterAdds_quantity h⟩
  · intro h
    unfold CartController.addToCart
    rw [h]
  · intro p hp hia
    unfold CartController.addToCart
    rw [hp]
    dsimp only
    rw [if_pos (by rw [hia]; rfl)]
  · intro p hp hia hgt
    unfold CartController.addToCart
    rw [hp]
    dsimp only
    rw [if_neg (by rw [hia]; simp)]
    by_cases hs : ((qty : Int) > p.stockQuantity)
    · rw [if_pos hs]
    · rw [if_neg hs]
      cases hf : db.cartItems.find?
          (fun c => c.userId == uid && c.productId == pid) with
      | none =>
          exfalso
          unfold firstLineQty at hgt
          rw [hf] at hgt
          push_cast at hgt
          omega
      | some e =>
          have hfl : firstLineQty db uid pid = e.quantity := by
            unfold firstLineQty
            rw [hf]
          rw [if_pos (isProductInCart_true_of_find? hf)]
          rw [view_find?_eq hp hia, hf, Option.map_some']
          dsimp only
          rw [if_pos (hfl ▸ hgt)]
  · intro p hp hia hle
    unfold CartController.addToCart
    rw [hp]
    dsimp only
    rw [if_neg (by rw [hia]; simp)]
    have hqs : ¬((qty : Int) > p.stockQuantity) := by
      push_cast at hle
      omega
    rw [if_neg hqs]
    cases hf : db.cartItems.find?
        (fun c => c.userId == uid && c.productId == pid) with
    | none =>
        rw [if_neg (by
          rw [isProductInCart_false_of_find? hf]
          exact Bool.false_ne_true)]
        exact ⟨_, _, rfl, (cartModel_addToCart_quantity db uid pid qty now).1,
          (cartModel_addToCart_quantity db uid pid qty now).2⟩
    | some e =>
        have hfl : firstLineQty db uid pid = e.quantity := by
          unfold firstLineQty
          rw [hf]
        rw [if_pos (isProductInCart_true_of_find? hf)]
        rw [view_find?_eq hp hia, hf, Option.map_some']
        dsimp only
        rw [if_neg (by
          have hle2 := hfl ▸ hle
          push_cast at hle2 ⊢
          omega)]
        exact ⟨_, _, rfl, (cartModel_addToCart_quantity db uid pid qty now).1,
          (cartModel_addToCart_quantity db uid pid qty now).2⟩

/-- C3: For every product and after every sequence of operations of this
core (addToCart, updateCartItem, createOrder, cancel, status updates),
the product's stockQuantity is an integer >= 0; in particular no
execution of createOrder ever drives a product's stockQuantity below
zero.  The hypothesis is the schema-level well-formedness of the initial
store (unique (user, product) cart lines, unique primary keys, stock
non-negative), all enforced by the migrations. -/
theorem stock_nonneg_invariant {db : DB} (ops : List Op) (h : WF db) :
    ∀ p ∈ (runOps db ops).products, 0 ≤ p.stockQuantity :=
  (runOps_wf ops h).1

/-- C1 (amended): no conditional stock decrement exists in the write:
the update in the source subtracts the quantity filtered only by
product id (part_002:38-44), and the only stock-sufficiency check is
the controller's prior validateCartItems read outside the transaction.
Against the deployed schema the transaction never even reaches that
decrement: for every non-empty cart its first per-line statement, the
order-items insert, violates the NOT NULL unit_price/total_price
columns, so the transaction rolls back with a generic constraint error
— the same outcome whether stock is sufficient or not, and never an
InsufficientStock failure raised by a conditional write. -/
theorem createOrder_no_stock_guard (db : DB) (uid : Nat)
    (od : OrderModel.OrderData) (items : List CartModel.JoinedItem)
    (now : Nat) (hne : items ≠ [])
    (hcol : (db.orders.any (fun o => o.orderNumber == od.orderNumber)) =
      false) :
    OrderModel.createOrder db uid od items now =
      .error StoreErr.notNullViolation := by
  unfold OrderModel.createOrder
  rw [if_neg (by rw [hcol]; exact Bool.false_ne_true)]
  rw [if_neg (by
    rw [(by simpa [List.isEmpty_iff] using hne : items.isEmpty = false)]
    exact Bool.false_ne_true)]

/-- C10 (amended): a direct updateStatus to cancelled rewrites only that
order's status and updatedAt and leaves every product, cart line and
order line untouched; stock restoration is attempted only by cancel.
But cancel never reaches its restore step: for every existing order it
fails inside findById's select of the missing order_items columns, so
updateStatus(id, cancelled) succeeds with all product stock unchanged
while cancel(id) fails with a store error and changes nothing — the two
do not produce the same order status. -/
theorem cancel_vs_updateStatus (db : DB) (id now : Nat) (o : Order)
    (hfo : db.orders.find?
      (fun x => x.id == id && OrderModel.ownedBy none x) = some o) :
    (∃ db1, OrdersController.updateOrderStatus db id "cancelled" now =
        OrdersController.UpdateStatusResult.ok db1
          { o with status := "cancelled", updatedAt := now } ∧
      db1.products = db.products ∧ db1.cartItems = db.cartItems ∧
      db1.orderItems = db.orderItems) ∧
    OrderModel.cancel db id none now =
      OrderModel.CancelResult.storeError StoreErr.missingColumn := by
  constructor
  · cases hu : OrderModel.updateStatus db id "cancelled" none now with
    | none =>
        exfalso
        unfold OrderModel.updateStatus at hu
        rw [hfo] at hu
        cases hu
    | some r =>
        obtain ⟨db1, o2⟩ := r
        rcases orderModel_updateStatus_ok hu with
          ⟨o3, hfo3, ho2, hprod, hcart, hoi, _, _⟩
        have hoe : o3 = o := by
          rw [hfo] at hfo3
          exact (Option.some.inj hfo3).symm
        refine ⟨db1, ?_, hprod, hcart, hoi⟩
        unfold OrdersController.updateOrderStatus
        rw [if_neg (by simp [OrdersController.validStatuses])]
        rw [hu]
        dsimp only
        rw [ho2, hoe]
  · unfold OrderModel.cancel OrderModel.findById
    rw [hfo]

/-- C6 (amended): a direct status update never inspects the order's
current status: the controller only checks that the requested value is
one of the six statuses, and OrderModel.updateStatus then overwrites the
status column unconditionally (part_002:236-255), so an update is
applied from ANY origin state — including the terminal states delivered
and cancelled, contrary to the claim. -/
theorem updateStatus_no_transition_guard (db : DB) (id : Nat)
    (status : String) (now : Nat) :
    (OrdersController.validStatuses.contains status = false →
      OrdersController.updateOrderStatus db id status now =
        OrdersController.UpdateStatusResult.invalidStatus) ∧
    (∀ o, OrdersController.validStatuses.contains status = true →
      db.orders.find? (fun x => x.id == id && OrderModel.ownedBy none x) =
        some o →
      ∃ db1, OrdersController.updateOrderStatus db id status now =
          OrdersController.UpdateStatusResult.ok db1
            { o with status := status, updatedAt := now } ∧
        db1.products = db.products ∧ db1.cartItems = db.cartItems ∧
        db1.orderItems = db.orderItems ∧
        db1.orders = db.orders.map (fun x =>
          if x.id == id && OrderModel.ownedBy none x
          then { x with status := status, updatedAt := now }
          else x)) := by
  constructor
  · intro hinv
    unfold OrdersController.updateOrderStatus
    rw [if_pos (by rw [hinv]; rfl)]
  · intro o hv hfo
    cases hu : OrderModel.updateStatus db id status none now with
    | none =>
        exfalso
        unfold OrderModel.updateStatus at hu
        rw [hfo] at hu
        cases hu
    | some r =>
        obtain ⟨db1, o2⟩ := r
        rcases orderModel_updateStatus_ok hu with
          ⟨o3, hfo3, ho2, hprod, hcart, hoi, _, hord⟩
        have hoe : o3 = o := by
          rw [hfo] at hfo3
          exact (Option.some.inj hfo3).symm
        refine ⟨db1, ?_, hprod, hcart, hoi, hord⟩
        unfold OrdersController.updateOrderStatus
        rw [if_neg (by rw [hv]; simp)]
        rw [hu]
        dsimp only
        rw [ho2, hoe]

/-- C8 (amended): the controller reads the cart through getCartItems,
which keeps only lines whose product exists and is active, so EmptyCart
is returned whenever that ACTIVE view is empty — including when the user
still has cart lines, all of them for inactive or deleted products.
CartValidationFailed, carrying the structured per-line issue list, is
returned when the active view is non-empty but some cart line of the
user has an issue (inactive or missing product, or quantity above
stock).  Both failures happen before any write: the store is unchanged
(applyOp). -/
theorem createOrder_precheck (db : DB) (uid ts rand now : Nat) :
    (CartModel.getCartItems db uid = [] →
      OrdersController.createOrder db uid ts rand now =
          OrdersController.CreateOrderResult.emptyCart ∧
        applyOp db (Op.createOrder uid ts rand now) = db) ∧
    (∀ c ∈ db.cartItems, c.userId = uid → CartModel.lineIssues db c ≠ [] →
      CartModel.getCartItems db uid ≠ [] →
      OrdersController.createOrder db uid ts rand now =
          OrdersController.CreateOrderResult.validationFailed
            (CartModel.validateCartItems db uid).invalidItems ∧
        applyOp db (Op.createOrder uid ts rand now) = db) := by
  constructor
  · intro hemp
    have hr : OrdersController.createOrder db uid ts rand now =
        OrdersController.CreateOrderResult.emptyCart := by
      unfold OrdersController.createOrder
      rw [if_pos (by rw [hemp]; rfl)]
    exact ⟨hr, by simp only [applyOp, hr]⟩
  · intro c hc hcu hiss hne
    have hvf : (CartModel.validateCartItems db uid).isValid = false :=
      validateCartItems_false_of_issue hc hcu hiss
    have hr : OrdersController.createOrder db uid ts rand now =
        OrdersController.CreateOrderResult.validationFailed
          (CartModel.validateCartItems db uid).invalidItems := by
      unfold OrdersController.createOrder
      rw [if_neg (by
        rw [(by simpa [List.isEmpty_iff] using hne :
          (CartModel.getCartItems db uid).isEmpty = false)]
        exact Bool.false_ne_true)]
      rw [if_pos (by rw [hvf]; rfl)]
    exact ⟨hr, by simp only [applyOp, hr]⟩

/-- C9 (amended): order numbers are built from the last eight digits of
the millisecond timestamp plus a three-digit random suffix with no
uniqueness guarantee, so distinct calls can collide.  When the generated
number equals an existing order's number, the unique constraint makes
the insert inside the transaction fail: the transaction rolls back
(store unchanged) and the controller's catch-all reports the generic
internal error — there is no ConflictRetry classification and no retry
in the code. -/
theorem orderNumber_collision_internal_error (db : DB)
    (uid ts rand now : Nat)
    (hne : CartModel.getCartItems db uid ≠ [])
    (hv : (CartModel.validateCartItems db uid).isValid = true)
    (hcol : db.orders.any (fun o =>
      o.orderNumber == OrderModel.generateOrderNumber ts rand) = true) :
    OrdersController.createOrder db uid ts rand now =
        OrdersController.CreateOrderResult.internalError ∧
      applyOp db (Op.createOrder uid ts rand now) = db := by
  have hr : OrdersController.createOrder db uid ts rand now =
      OrdersController.CreateOrderResult.internalError := by
    unfold OrdersController.createOrder
    rw [if_neg (by
      rw [(by simpa [List.isEmpty_iff] using hne :
        (CartModel.getCartItems db uid).isEmpty = false)]
      exact Bool.false_ne_true)]
    rw [if_neg (by rw [hv]; simp)]
    dsimp only
    unfold OrderModel.createOrder
    rw [if_pos hcol]
  exact ⟨hr, by simp only [applyOp, hr]⟩

/-! The order-line snapshot columns: what createOrder writes versus what
the repository's own order_items schema declares. -/

/-- Column keys supplied by the order-items insert in
OrderModel.createOrder (part_002:26-34). -/
def orderItemsInsertKeys : List String :=
  ["orderId", "productId", "quantity", "price", "productName",
   "productImage", "createdAt", "updatedAt"]

/-- Columns of the order_items table as the repository's own schema
declares them (models/schema.js part_001:108-121 and
migrations/001_initial_schema.sql lines 80-90). -/
def orderItemsSchemaColumns : List String :=
  ["id", "orderId", "productId", "productName", "productSku", "quantity",
   "unitPrice", "totalPrice", "createdAt"]

/-- Columns of order_items declared NOT NULL with no default
(part_001:110-116; migrations/001 lines 82-88). -/
def orderItemsRequiredColumns : List String :=
  ["orderId", "productId", "productName", "quantity", "unitPrice",
   "totalPrice"]

/-- C4 (code bug): the snapshot insert in OrderModel.createOrder does
not populate the sku snapshot (productSku) nor the line totals the
schema demands: the NOT NULL columns unitPrice and totalPrice receive no
value, while the keys price and productImage it does write are not
columns of the order_items table at all.  The insert therefore
contradicts the repository's own schema and stores no sku or lineTotal
snapshot, against the claim (and the schema's documented intent). -/
theorem orderItems_insert_schema_mismatch :
    ("unitPrice" ∈ orderItemsRequiredColumns ∧
      "unitPrice" ∉ orderItemsInsertKeys) ∧
    ("totalPrice" ∈ orderItemsRequiredColumns ∧
      "totalPrice" ∉ orderItemsInsertKeys) ∧
    ("productSku" ∈ orderItemsSchemaColumns ∧
      "productSku" ∉ orderItemsInsertKeys) ∧
    ("price" ∈ orderItemsInsertKeys ∧
      "price" ∉ orderItemsSchemaColumns) ∧
    ("productImage" ∈ orderItemsInsertKeys ∧
      "productImage" ∉ orderItemsSchemaColumns) := by decide

/-! Concrete stores for the counterexamples and witnesses. -/

/-- Product row with one unit left in stock. -/
def c1Product : Product :=
  { id := 1, name := "Widget", sku := some "W-1", price := 5,
    stockQuantity := 1, imageUrl := none, isActive := true, updatedAt := 0 }

def c1Db : DB :=
  { products := [c1Product], cartItems := [], orders := [],
    orderItems := [], nextCartItemId := 1, nextOrderId := 1 }

/-- Cart line handed to the transaction with a stale product snapshot:
the embedded stock was read as 5 before a concurrent checkout drained
the live row to 1, the time-of-check/time-of-use situation the spec
describes. -/
def c1Item : CartModel.JoinedItem :=
  { id := 1, productId := 1, quantity := 2,
    product := { c1Product with stockQuantity := 5 } }

def c1Od : OrderModel.OrderData :=
  { orderNumber := "ORD-00000001-001", status := "pending",
    paymentStatus := "pending", totalAmount := 10 }

/-- Same store with five units in stock: sufficient for the requested
quantity of two. -/
def c1SuffDb : DB :=
  { c1Db with products := [{ c1Product with stockQuantity := 5 }] }

/-- C1 counterexample: with insufficient stock (one unit, quantity two)
the transaction aborts with the NOT NULL violation of the order-items
insert — not with an InsufficientStock error — and with sufficient
stock (five units) the very same failure occurs, so no stock condition
is ever evaluated as part of the write. -/
theorem createOrder_stock_guard_cex :
    OrderModel.createOrder c1Db 7 c1Od [c1Item] 3 =
        .error StoreErr.notNullViolation ∧
      OrderModel.createOrder c1SuffDb 7 c1Od [c1Item] 3 =
        .error StoreErr.notNullViolation := by
  decide

/-- Witness for the amended C1 theorem at the insufficient-stock
store. -/
theorem createOrder_no_stock_guard_witness :
    ([c1Item] ≠ ([] : List CartModel.JoinedItem)) ∧
      (c1Db.orders.any (fun o => o.orderNumber == c1Od.orderNumber)) =
        false ∧
      OrderModel.createOrder c1Db 7 c1Od [c1Item] 3 =
        .error StoreErr.notNullViolation :=
  ⟨by decide, by decide,
    createOrder_no_stock_guard c1Db 7 c1Od [c1Item] 3 (by decide)
      (by decide)⟩

def c2Product : Product :=
  { id := 1, name := "Widget", sku := none, price := 5,
    stockQuantity := 5, imageUrl := none, isActive := true, updatedAt := 0 }

def c2Db : DB :=
  { products := [c2Product],
    cartItems :=
      [{ id := 1, userId := 7, productId := 1, quantity := 2, updatedAt := 0 }],
    orders := [], orderItems := [], nextCartItemId := 2, nextOrderId := 1 }

/-- C2 (code bug): with a valid one-line cart the checkout ends in the
catch-all 500 with no effect committed — the transaction rolls back on
the order-items NOT NULL violation, and the cart deletion, issued
outside the transaction only after a successful commit
(orders.js:193-196), never runs either; no order can ever be created. -/
theorem createOrder_commit_unreachable :
    OrdersController.createOrder c2Db 7 1000 1 5 =
        OrdersController.CreateOrderResult.internalError ∧
      applyOp c2Db (Op.createOrder 7 1000 1 5) = c2Db := by
  decide

def c3Db : DB :=
  { products :=
      [{ id := 1, name := "Widget", sku := none, price := 5,
         stockQuantity := 5, imageUrl := none, isActive := true,
         updatedAt := 0 }],
    cartItems := [], orders := [], orderItems := [],
    nextCartItemId := 1, nextOrderId := 1 }

/-- A full life cycle: add to cart, checkout, cancel, then a direct
status update. -/
def c3Ops : List Op :=
  [Op.addToCart 7 1 2 1, Op.createOrder 7 1000 1 2,
   Op.cancelOrder 1 none 3, Op.updateOrderStatus 1 "shipped" 4]

/-- Witness for C3 at a concrete store and operation sequence. -/
theorem stock_nonneg_invariant_witness :
    WF c3Db ∧ ∀ p ∈ (runOps c3Db c3Ops).products, 0 ≤ p.stockQuantity :=
  ⟨by decide, stock_nonneg_invariant c3Ops (by decide)⟩

def c6Order : Order :=
  { id := 1, userId := 7, orderNumber := "ORD-B", status := "delivered",
    paymentStatus := "paid", totalAmount := 10, updatedAt := 0 }

def c6Db : DB :=
  { products := [], cartItems := [], orders := [c6Order],
    orderItems := [], nextCartItemId := 1, nextOrderId := 2 }

/-- C6 counterexample: an order in the terminal state delivered is moved
back to pending by a direct status update — the update is applied, not
rejected, and the stored status changes. -/
theorem updateStatus_terminal_cex :
    (match OrdersController.updateOrderStatus c6Db 1 "pending" 4 with
      | OrdersController.UpdateStatusResult.ok db1 o =>
          some (o.status, db1.orders.map (fun x => x.status))
      | _ => none) = some ("pending", ["pending"]) := by decide

/-- Witness for the amended C6 theorem at the same store. -/
theorem updateStatus_no_transition_guard_witness :
    OrdersController.validStatuses.contains "pending" = true ∧
      c6Db.orders.find? (fun x => x.id == 1 && OrderModel.ownedBy none x) =
        some c6Order ∧
      (∃ db1, OrdersController.updateOrderStatus c6Db 1 "pending" 4 =
          OrdersController.UpdateStatusResult.ok db1
            { c6Order with status := "pending", updatedAt := 4 } ∧
        db1.products = c6Db.products ∧ db1.cartItems = c6Db.cartItems ∧
        db1.orderItems = c6Db.orderItems ∧
        db1.orders = c6Db.orders.map (fun x =>
          if x.id == 1 && OrderModel.ownedBy none x
          then { x with status := "pending", updatedAt := 4 }
          else x)) :=
  ⟨by decide, by decide,
    (updateStatus_no_transition_guard c6Db 1 "pending" 4).2 c6Order
      (by decide) (by decide)⟩

def c7Product : Product :=
  { id := 1, name := "Widget", sku := none, price := 5,
    stockQuantity := 10, imageUrl := none, isActive := true, updatedAt := 0 }

def c7Db : DB :=
  { products := [c7Product], cartItems := [], orders := [],
    orderItems := [], nextCartItemId := 1, nextOrderId := 1 }

/-- Witness for C7: a first add of quantity 2 succeeds and the stored
line carries quantity 0 + 2. -/
theorem addToCart_spec_witness :
    (0 : Nat) < 2 ∧ ProductModel.findById c7Db 1 = some c7Product ∧
      c7Product.isActive = true ∧
      ((firstLineQty c7Db 7 1 + 2 : Nat) : Int) ≤ c7Product.stockQuantity ∧
      (∃ db2 line, CartController.addToCart c7Db 7 1 2 1 =
          CartController.AddResult.ok db2 line ∧
        line.quantity = firstLineQty c7Db 7 1 + 2 ∧
        firstLineQty db2 7 1 = firstLineQty c7Db 7 1 + 2) :=
  ⟨by decide, by decide, by decide, by decide,
    (addToCart_spec c7Db 7 1 2 1 (by decide)).2.2.2.1 c7Product
      (by decide) (by decide) (by decide)⟩

def c8Product : Product :=
  { id := 1, name := "Gadget", sku := none, price := 4,
    stockQuantity := 5, imageUrl := none, isActive := false, updatedAt := 0 }

def c8Db : DB :=
  { products := [c8Product],
    cartItems :=
      [{ id := 1, userId := 7, productId := 1, quantity := 2, updatedAt := 0 }],
    orders := [], orderItems := [], nextCartItemId := 2, nextOrderId := 1 }

/-- C8 counterexample: the user HAS a cart line whose product is
inactive, yet createOrder reports EmptyCart rather than
CartValidationFailed, because the controller's cart read is filtered to
active products. -/
theorem createOrder_inactive_cart_cex :
    c8Db.cartItems ≠ [] ∧
      (c8Db.findProduct 1).map (fun p => p.isActive) = some false ∧
      OrdersController.createOrder c8Db 7 1000 1 5 =
        OrdersController.CreateOrderResult.emptyCart := by decide

def c8bActive : Product :=
  { id := 1, name := "Widget", sku := none, price := 5,
    stockQuantity := 5, imageUrl := none, isActive := true, updatedAt := 0 }

def c8bInactive : Product :=
  { id := 2, name := "Gadget", sku := none, price := 4,
    stockQuantity := 5, imageUrl := none, isActive := false, updatedAt := 0 }

def c8bLine : CartItem :=
  { id := 2, userId := 7, productId := 2, quantity := 1, updatedAt := 0 }

def c8bDb : DB :=
  { products := [c8bActive, c8bInactive],
    cartItems :=
      [{ id := 1, userId := 7, productId := 1, quantity := 2, updatedAt := 0 },
       c8bLine],
    orders := [], orderItems := [], nextCartItemId := 3, nextOrderId := 1 }

/-- Witness for the amended C8 theorem: one active and one inactive
line give CartValidationFailed without any write. -/
theorem createOrder_precheck_witness :
    c8bLine ∈ c8bDb.cartItems ∧ c8bLine.userId = 7 ∧
      CartModel.lineIssues c8bDb c8bLine ≠ [] ∧
      CartModel.getCartItems c8bDb 7 ≠ [] ∧
      (OrdersController.createOrder c8bDb 7 1000 1 5 =
          OrdersController.CreateOrderResult.validationFailed
            (CartModel.validateCartItems c8bDb 7).invalidItems ∧
        applyOp c8bDb (Op.createOrder 7 1000 1 5) = c8bDb) :=
  ⟨by decide, by decide, by decide, by decide,
    (createOrder_precheck c8bDb 7 1000 1 5).2 c8bLine (by decide) (by decide)
      (by decide) (by decide)⟩

def c9Product : Product :=
  { id := 1, name := "Widget", sku := none, price := 5,
    stockQuantity := 5, imageUrl := none, isActive := true, updatedAt := 0 }

def c9Order : Order :=
  { id := 1, userId := 9, orderNumber := "ORD-12345678-007",
    status := "pending", paymentStatus := "pending", totalAmount := 3,
    updatedAt := 0 }

def c9Db : DB :=
  { products := [c9Product],
    cartItems :=
      [{ id := 1, userId := 7, productId := 1, quantity := 2, updatedAt := 0 }],
    orders := [c9Order], orderItems := [], nextCartItemId := 2,
    nextOrderId := 2 }

/-- C9 counterexample: two distinct timestamps generate the same order
number (no uniqueness), and a createOrder call whose generated number
collides with an existing order fails with the generic internal error,
not with a retryable ConflictRetry. -/
theorem orderNumber_collision_cex :
    OrderModel.generateOrderNumber 112345678 7 =
        OrderModel.generateOrderNumber 212345678 7 ∧
      OrderModel.generateOrderNumber 112345678 7 = "ORD-12345678-007" ∧
      OrdersController.createOrder c9Db 7 112345678 7 5 =
        OrdersController.CreateOrderResult.internalError := by decide

/-- Witness for the amended C9 theorem at the same store. -/
theorem orderNumber_collision_internal_error_witness :
    CartModel.getCartItems c9Db 7 ≠ [] ∧
      (CartModel.validateCartItems c9Db 7).isValid = true ∧
      (c9Db.orders.any (fun o =>
        o.orderNumber == OrderModel.generateOrderNumber 112345678 7)) =
          true ∧
      (OrdersController.createOrder c9Db 7 112345678 7 5 =
          OrdersController.CreateOrderResult.internalError ∧
        applyOp c9Db (Op.createOrder 7 112345678 7 5) = c9Db) :=
  ⟨by decide, by decide, by decide,
    orderNumber_collision_internal_error c9Db 7 112345678 7 5 (by decide)
      (by decide) (by decide)⟩

def c10Product : Product :=
  { id := 1, name := "Widget", sku := none, price := 5,
    stockQuantity := 3, imageUrl := none, isActive := true, updatedAt := 0 }

def c10Order : Order :=
  { id := 1, userId := 7, orderNumber := "ORD-C", status := "pending",
    paymentStatus := "pending", totalAmount := 10, updatedAt := 0 }

def c10Db : DB :=
  { products := [c10Product], cartItems := [], orders := [c10Order],
    orderItems :=
      [{ orderId := 1, productId := 1, quantity := 2, price := 5,
         productName := "Widget", productImage := none }],
    nextCartItemId := 1, nextOrderId := 2 }

/-- C10 counterexample: at a pending order with an active-product line,
the direct status update to cancelled is applied with every product
untouched, while cancel fails with the findById store error and
produces no status at all — the two paths do not reach the same order
status. -/
theorem cancel_vs_updateStatus_cex :
    (match OrdersController.updateOrderStatus c10Db 1 "cancelled" 4 with
      | OrdersController.UpdateStatusResult.ok db1 o =>
          some (o.status, db1.products)
      | _ => none) = some ("cancelled", c10Db.products) ∧
      OrderModel.cancel c10Db 1 none 4 =
        OrderModel.CancelResult.storeError StoreErr.missingColumn := by
  decide

/-- Witness for the amended C10 theorem at the same store. -/
theorem cancel_vs_updateStatus_witness :
    c10Db.orders.find?
        (fun x => x.id == 1 && OrderModel.ownedBy none x) = some c10Order ∧
      ((∃ db1, OrdersController.updateOrderStatus c10Db 1 "cancelled" 4 =
          OrdersController.UpdateStatusResult.ok db1
            { c10Order with status := "cancelled", updatedAt := 4 } ∧
        db1.products = c10Db.products ∧ db1.cartItems = c10Db.cartItems ∧
        db1.orderItems = c10Db.orderItems) ∧
      OrderModel.cancel c10Db 1 none 4 =
        OrderModel.CancelResult.storeError StoreErr.missingColumn) :=
  ⟨by decide, cancel_vs_updateStatus c10Db 1 4 c10Order (by decide)⟩
